import Mathlib

/-!
Formal model of the sentry-audit Detection & Risk-Scoring Engine.

Each definition below is a shallow embedding of a function of the Python
source (file and symbol named in its doc comment).  Python strings are
modelled as Lean `String` / `List Char`; `re.search` truthiness of a fixed
pattern is modelled by a hand-rolled exact matcher for that pattern
(documented at each matcher); `dict` findings are modelled by structures
carrying the fields the verified properties mention (the purely
informational free-text fields — title, description, code snippet,
recommendation, fixed code, exploit scenario, cwe/swc ids, references —
are omitted from the structures: no verified property depends on them).
-/

namespace SentryAudit

/-! ### Character classes and basic string helpers

Python `re` classes restricted to ASCII (all inputs of interest are ASCII;
Python additionally accepts some non-ASCII whitespace/word characters,
which no claim depends on). -/

/-- Python regex class `\s` (ASCII): space, tab, newline, CR, FF, VT. -/
def isPyWs (c : Char) : Bool :=
  c = ' ' || c = '\t' || c = '\n' || c = '\r' || c = '\x0b' || c = '\x0c'

/-- Python regex class `\w` (ASCII): letters, digits, underscore. -/
def isPyWord (c : Char) : Bool :=
  c.isAlphanum || c = '_'

/-- Python regex class `\d` (ASCII digits). -/
def isPyDigit (c : Char) : Bool :=
  c.isDigit

/-- Python substring containment `needle in hay` on character lists. -/
def containsSub (hay needle : List Char) : Bool :=
  needle.isPrefixOf hay ||
    match hay with
    | [] => false
    | _ :: t => containsSub t needle

/-- Python `needle in hay` on strings. -/
def pyIn (needle hay : String) : Bool :=
  containsSub hay.data needle.data

/-- Python `str.strip()` restricted to what the code observes afterwards:
the sources only call `.strip().startswith(...)`, for which stripping the
leading whitespace run is equivalent to a full two-sided strip. -/
def pyStripLeading (s : String) : List Char :=
  s.data.dropWhile isPyWs

/-- Python `code.split('\n')` on character lists: fields between newline
separators, keeping empty fields, `[""]` on the empty string. -/
def pySplitNl (cs : List Char) : List (List Char) :=
  match cs with
  | [] => [[]]
  | c :: t =>
    if c = '\n' then [] :: pySplitNl t
    else
      match pySplitNl t with
      | [] => [[c]]
      | h :: r => (c :: h) :: r

/-- Python `code.split('\n')` on strings. -/
def pySplitLines (s : String) : List String :=
  (pySplitNl s.data).map String.mk

theorem containsSub_nil (needle : List Char) :
    containsSub [] needle = needle.isPrefixOf [] := by
  rw [containsSub]
  simp

theorem containsSub_cons (c : Char) (t needle : List Char) :
    containsSub (c :: t) needle =
      (needle.isPrefixOf (c :: t) || containsSub t needle) := by
  rw [containsSub]

/-- Containment is antitone in the needle: if a longer needle occurs then
so does each of its prefixes. -/
theorem containsSub_of_isPrefixOf (hay : List Char) :
    ∀ n m : List Char, n.isPrefixOf m → containsSub hay m = true →
      containsSub hay n = true := by
  induction hay with
  | nil =>
      intro n m hnm hm
      rw [containsSub_nil] at hm ⊢
      rw [List.isPrefixOf_iff_prefix] at hnm hm ⊢
      exact hnm.trans hm
  | cons c t ih =>
      intro n m hnm hm
      rw [containsSub_cons] at hm ⊢
      rcases Bool.or_eq_true_iff.mp hm with h | h
      · refine Bool.or_eq_true_iff.mpr (Or.inl ?_)
        rw [List.isPrefixOf_iff_prefix] at hnm h ⊢
        exact hnm.trans h
      · exact Bool.or_eq_true_iff.mpr (Or.inr (ih n m hnm h))

/-! ### Findings (`src/backend/app/services/detectors/base_detector.py`)

`BaseDetector.create_finding` builds a dict with `rule_id` and `severity`
taken from the detector, `category="security"`, `detected_by="static"`,
`confidence=90`, plus per-finding fields.  We model the fields the claims
speak about. -/

/-- One detector finding (projection of the `create_finding` dict). -/
structure Finding where
  rule_id : String
  severity : String
  category : String
  line_number : Option Nat
  function_name : Option String
  detected_by : String
  confidence : Nat
  deriving Repr, DecidableEq

/-- `BaseDetector.create_finding` defaults: `category="security"`,
`detected_by="static"`, `confidence=90`. -/
def create_finding (rule_id severity : String) (line_number : Option Nat)
    (function_name : Option String) : Finding :=
  { rule_id := rule_id
    severity := severity
    category := "security"
    line_number := line_number
    function_name := function_name
    detected_by := "static"
    confidence := 90 }

/-! ### Risk scoring (`src/backend/app/utils/scoring.py`) -/

/-- Severity weights of `calculate_risk_score`. -/
def severityWeight : String → Option Int
  | "critical" => some 25
  | "high" => some 15
  | "medium" => some 8
  | "low" => some 3
  | "info" => some 1
  | _ => none

/-- `calculate_risk_score` (scoring.py lines 7-34): starts at 100, for
each `(severity, count)` item of the dict subtracts `weight * count` when
the severity is one of the five weighted keys, then floors at 0.  The
dict is modelled as its item list. -/
def calculate_risk_score (severity_counts : List (String × Int)) : Int :=
  max 0 (severity_counts.foldl
    (fun score kv =>
      match severityWeight kv.1 with
      | some w => score - w * kv.2
      | none => score)
    100)

/-- `calculate_security_rating` (scoring.py lines 37-68): the cascade of
threshold tests, top band first.  Total on all integers. -/
def calculate_security_rating (risk_score : Int) : String :=
  if risk_score ≥ 95 then "A+"
  else if risk_score ≥ 90 then "A"
  else if risk_score ≥ 85 then "A-"
  else if risk_score ≥ 80 then "B+"
  else if risk_score ≥ 75 then "B"
  else if risk_score ≥ 70 then "B-"
  else if risk_score ≥ 65 then "C+"
  else if risk_score ≥ 60 then "C"
  else if risk_score ≥ 55 then "C-"
  else if risk_score ≥ 50 then "D"
  else "F"

/-- A five-key histogram, one item per severity level, as passed to
`calculate_risk_score` by the audit pipeline. -/
def histogramItems (critical high medium low info : Nat) : List (String × Int) :=
  [("critical", (critical : Int)), ("high", (high : Int)),
   ("medium", (medium : Int)), ("low", (low : Int)), ("info", (info : Int))]

/-- C1: for every severity histogram over the five levels,
`calculate_risk_score` is `max 0 (100 - (25*critical + 15*high + 8*medium
+ 3*low + 1*info))`; the all-zero histogram scores 100 and the histogram
with four criticals scores exactly 0. -/
theorem calculate_risk_score_formula :
    (∀ c h m l i : Nat,
      calculate_risk_score (histogramItems c h m l i) =
        max 0 (100 - (25 * (c : Int) + 15 * h + 8 * m + 3 * l + 1 * i))) ∧
    calculate_risk_score (histogramItems 0 0 0 0 0) = 100 ∧
    calculate_risk_score (histogramItems 4 0 0 0 0) = 0 := by
  refine ⟨fun c h m l i => ?_, by decide, by decide⟩
  simp only [calculate_risk_score, histogramItems, List.foldl_cons,
    List.foldl_nil, severityWeight]
  ring_nf

/-- C2: `calculate_security_rating` is total on the integers and is the
strict band table of the spec; it consumes nothing but the score. -/
theorem calculate_security_rating_bands :
    ∀ s : Int,
      (95 ≤ s → calculate_security_rating s = "A+") ∧
      (90 ≤ s ∧ s < 95 → calculate_security_rating s = "A") ∧
      (85 ≤ s ∧ s < 90 → calculate_security_rating s = "A-") ∧
      (80 ≤ s ∧ s < 85 → calculate_security_rating s = "B+") ∧
      (75 ≤ s ∧ s < 80 → calculate_security_rating s = "B") ∧
      (70 ≤ s ∧ s < 75 → calculate_security_rating s = "B-") ∧
      (65 ≤ s ∧ s < 70 → calculate_security_rating s = "C+") ∧
      (60 ≤ s ∧ s < 65 → calculate_security_rating s = "C") ∧
      (55 ≤ s ∧ s < 60 → calculate_security_rating s = "C-") ∧
      (50 ≤ s ∧ s < 55 → calculate_security_rating s = "D") ∧
      (s < 50 → calculate_security_rating s = "F") := by
  intro s
  unfold calculate_security_rating
  refine ⟨fun h => ?_, fun h => ?_, fun h => ?_, fun h => ?_, fun h => ?_,
    fun h => ?_, fun h => ?_, fun h => ?_, fun h => ?_, fun h => ?_, fun h => ?_⟩ <;>
    · repeat rw [if_neg (by omega)]
      all_goals first
      | rfl
      | rw [if_pos (by omega)]

/-- C2 witness: the band table evaluated at concrete scores. -/
theorem calculate_security_rating_bands_witness :
    calculate_security_rating 97 = "A+" ∧ calculate_security_rating 52 = "D" ∧
      calculate_security_rating (-3) = "F" :=
  ⟨(calculate_security_rating_bands 97).1 (by decide),
   ((calculate_security_rating_bands 52).2.2.2.2.2.2.2.2.2).1 ⟨by decide, by decide⟩,
   ((calculate_security_rating_bands (-3)).2.2.2.2.2.2.2.2.2).2 (by decide)⟩

/-! ### Pattern matching helpers

Each Python regex of the sources is embedded as a dedicated matcher on
`List Char` returning the unconsumed rest (`none` if the pattern does not
match at the head).  `\s*`/`\s+`/`\w+`/`\d+`/`[^x]*` runs are taken
maximally; in every embedded pattern the run is followed by a token whose
first character the class cannot match, so maximal munch coincides with
Python's greedy backtracking (the two places where this is false —
`\s*\n\s*` and `\s+.*payable` — get bespoke matchers below).
`re.search` is the leftmost such match over all start positions. -/

/-- Literal fragment of a regex: match `s` and consume it. -/
def litM (s : String) (cs : List Char) : Option (List Char) :=
  if s.data.isPrefixOf cs then some (cs.drop s.data.length) else none

/-- Maximal-munch `\s*`. -/
def wsStarM (cs : List Char) : List Char :=
  cs.dropWhile isPyWs

/-- Maximal-munch `\s+`. -/
def wsPlusM (cs : List Char) : Option (List Char) :=
  match cs with
  | [] => none
  | c :: t => if isPyWs c then some (t.dropWhile isPyWs) else none

/-- Maximal-munch `\w+`, returning the captured run and the rest. -/
def wordPlusM (cs : List Char) : Option (List Char × List Char) :=
  let run := cs.takeWhile isPyWord
  if run.isEmpty then none else some (run, cs.drop run.length)

/-- Maximal-munch `\d+`, returning the captured digit run and the rest. -/
def digitPlusM (cs : List Char) : Option (List Char × List Char) :=
  let run := cs.takeWhile isPyDigit
  if run.isEmpty then none else some (run, cs.drop run.length)

/-- Maximal-munch one-or-more run of an arbitrary class (for `[\w\.]+`). -/
def classPlusM (p : Char → Bool) (cs : List Char) : Option (List Char) :=
  match cs with
  | [] => none
  | c :: t => if p c then some (t.dropWhile p) else none

/-- Maximal-munch zero-or-more run of a negated class (for `[^x]*`). -/
def classStarM (p : Char → Bool) (cs : List Char) : List Char :=
  cs.dropWhile p

/-- Leftmost match: first start position (with its result) at which the
matcher succeeds — the embedding of `re.search`. -/
def firstMatchAux {α : Type} (m : List Char → Option α) :
    List Char → Option (Nat × α)
  | [] => (m []).map (fun a => (0, a))
  | c :: t =>
    match m (c :: t) with
    | some a => some (0, a)
    | none => (firstMatchAux m t).map (fun p => (p.1 + 1, p.2))

/-- Truthiness of `re.search(pattern, s)`. -/
def reSearch {α : Type} (m : List Char → Option α) (s : String) : Bool :=
  (firstMatchAux m s.data).isSome

/-! ### TxOrigin detector
(`src/backend/app/services/detectors/tx_origin_detector.py`) -/

/-- Matcher for the Python regex of six characters classes:
the pattern `require\s*\(\s*tx\.origin\s*==`. -/
def matchTxPat1 (cs : List Char) : Option (List Char) := do
  let cs ← litM "require" cs
  let cs := wsStarM cs
  let cs ← litM "(" cs
  let cs := wsStarM cs
  let cs ← litM "tx.origin" cs
  let cs := wsStarM cs
  litM "==" cs

/-- Matcher for `require\s*\(\s*tx\.origin\s*!=`. -/
def matchTxPat2 (cs : List Char) : Option (List Char) := do
  let cs ← litM "require" cs
  let cs := wsStarM cs
  let cs ← litM "(" cs
  let cs := wsStarM cs
  let cs ← litM "tx.origin" cs
  let cs := wsStarM cs
  litM "!=" cs

/-- Matcher for `if\s*\(\s*tx\.origin\s*==`. -/
def matchTxPat3 (cs : List Char) : Option (List Char) := do
  let cs ← litM "if" cs
  let cs := wsStarM cs
  let cs ← litM "(" cs
  let cs := wsStarM cs
  let cs ← litM "tx.origin" cs
  let cs := wsStarM cs
  litM "==" cs

/-- Matcher for `if\s*\(\s*tx\.origin\s*!=`. -/
def matchTxPat4 (cs : List Char) : Option (List Char) := do
  let cs ← litM "if" cs
  let cs := wsStarM cs
  let cs ← litM "(" cs
  let cs := wsStarM cs
  let cs ← litM "tx.origin" cs
  let cs := wsStarM cs
  litM "!=" cs

/-- Matcher for `tx\.origin\s*==\s*owner`. -/
def matchTxPat5 (cs : List Char) : Option (List Char) := do
  let cs ← litM "tx.origin" cs
  let cs := wsStarM cs
  let cs ← litM "==" cs
  let cs := wsStarM cs
  litM "owner" cs

/-- Matcher for `tx\.origin\s*==\s*admin`. -/
def matchTxPat6 (cs : List Char) : Option (List Char) := do
  let cs ← litM "tx.origin" cs
  let cs := wsStarM cs
  let cs ← litM "==" cs
  let cs := wsStarM cs
  litM "admin" cs

/-- The inner `for pattern in tx_origin_patterns: if re.search(pattern,
line)` test of `TxOriginDetector.detect`: true when any of the six
authorization patterns occurs on the line. -/
def txOriginLineMatches (line : String) : Bool :=
  reSearch matchTxPat1 line || reSearch matchTxPat2 line ||
  reSearch matchTxPat3 line || reSearch matchTxPat4 line ||
  reSearch matchTxPat5 line || reSearch matchTxPat6 line

/-- Group 1 of `re.search(r'function\s+(\w+)', line)`. -/
def extractFuncNameM (cs : List Char) : Option (List Char) := do
  let cs ← litM "function" cs
  let cs ← wsPlusM cs
  let (run, _) ← wordPlusM cs
  pure run

/-- Function name found on a single line, if any. -/
def extractFuncName (line : String) : Option String :=
  (firstMatchAux extractFuncNameM line.data).map (fun p => String.mk p.2)

/-- The shared backward scan `for k in range(i, -1, -1):
re.search(r'function\s+(\w+)', lines[k])`: name from the closest line at
or above index `i` declaring a function. -/
def findEnclosingFunction (lines : List String) (i : Nat) : Option String :=
  ((lines.take (i + 1)).reverse).findSome? extractFuncName

/-- Per-line body of the `for i, line in enumerate(lines)` loop of
`TxOriginDetector.detect` (lines 60-112): at most one SEN-005 finding per
line (the inner loop breaks after the first matching pattern). -/
def txOriginLineFindings (lines : List String) (i : Nat) (line : String) :
    List Finding :=
  if txOriginLineMatches line then
    [create_finding "SEN-005" "high" (some (i + 1)) (findEnclosingFunction lines i)]
  else []

/-- The `for i, line in enumerate(lines)` loop shape shared by the
line-oriented scans, accumulating each per-line body in order. -/
def lineScanAux {β : Type} (g : Nat → String → List β) :
    Nat → List String → List β
  | _, [] => []
  | i, l :: rest => g i l ++ lineScanAux g (i + 1) rest

/-- Run a per-line body over `enumerate(lines)`. -/
def lineScan {β : Type} (g : Nat → String → List β) (lines : List String) :
    List β :=
  lineScanAux g 0 lines

/-- `TxOriginDetector.detect` (tx_origin_detector.py lines 24-114):
non-solidity languages yield nothing; otherwise the per-line scan over
`code.split('\n')`. -/
def txOriginDetect (code : String) (language : String) : List Finding :=
  if language ≠ "solidity" then []
  else lineScan (txOriginLineFindings (pySplitLines code)) (pySplitLines code)

theorem txOriginLineFindings_line_number (lines : List String) (i : Nat)
    (l : String) (f : Finding) (hf : f ∈ txOriginLineFindings lines i l) :
    f.line_number = some (i + 1) := by
  unfold txOriginLineFindings at hf
  split at hf
  · rcases List.mem_singleton.mp hf with rfl
    rfl
  · exact absurd hf (List.not_mem_nil f)

/-- Indices strictly above the target contribute no counted finding. -/
theorem countP_lineScanAux_eq_zero (g : Nat → String → List Finding)
    (p : Finding → Bool) (i0 : Nat)
    (honly : ∀ i l f, f ∈ g i l → p f = true → i = i0) :
    ∀ (lines : List String) (n : Nat), i0 < n →
      (lineScanAux g n lines).countP p = 0 := by
  intro lines
  induction lines with
  | nil => intro n _; rfl
  | cons l rest ih =>
      intro n hn
      unfold lineScanAux
      rw [List.countP_append, ih (n + 1) (Nat.lt_succ_of_lt hn)]
      have hz : (g n l).countP p = 0 := by
        rw [List.countP_eq_zero]
        intro f hf hpf
        exact absurd (honly n l f hf hpf) (Nat.ne_of_gt hn)
      omega

/-- When every counted finding can only come from line index `i0`, the
whole scan counts exactly what line `i0`'s body counts. -/
theorem countP_lineScanAux (g : Nat → String → List Finding)
    (p : Finding → Bool) (i0 : Nat) (x : String)
    (honly : ∀ i l f, f ∈ g i l → p f = true → i = i0) :
    ∀ (lines : List String) (n : Nat), n ≤ i0 →
      lines.get? (i0 - n) = some x →
      (lineScanAux g n lines).countP p = (g i0 x).countP p := by
  intro lines
  induction lines with
  | nil => intro n _ hget; simp at hget
  | cons l rest ih =>
      intro n hn hget
      unfold lineScanAux
      rw [List.countP_append]
      rcases Nat.eq_or_lt_of_le hn with heq | hlt
      · subst heq
        rw [Nat.sub_self] at hget
        rw [List.get?_cons_zero] at hget
        injection hget with hx
        subst hx
        rw [countP_lineScanAux_eq_zero g p n honly rest (n + 1) (Nat.lt_succ_self n)]
        omega
      · have hz : (g n l).countP p = 0 := by
          rw [List.countP_eq_zero]
          intro f hf hpf
          exact absurd (honly n l f hf hpf) (Nat.ne_of_lt hlt)
        have hsub : i0 - n = (i0 - (n + 1)) + 1 := by omega
        rw [hsub, List.get?_cons_succ] at hget
        rw [hz, ih (n + 1) hlt hget]
        omega

theorem countP_lineScan (g : Nat → String → List Finding)
    (p : Finding → Bool) (i0 : Nat) (x : String) (lines : List String)
    (honly : ∀ i l f, f ∈ g i l → p f = true → i = i0)
    (hget : lines.get? i0 = some x) :
    (lineScan g lines).countP p = (g i0 x).countP p := by
  unfold lineScan
  exact countP_lineScanAux g p i0 x honly lines 0 (Nat.zero_le i0)
    (by rw [Nat.sub_zero]; exact hget)

/-- C3: a line reading `require(tx.origin == owner);` yields exactly one
SEN-005 finding on that line, and after replacing `tx.origin` by
`msg.sender` on that line the detector yields no finding on that line.
Line numbers are 1-based: index `i0` is line `i0 + 1`. -/
theorem txOriginDetect_require_line (code : String) (i0 : Nat)
    (h : (pySplitLines code).get? i0 = some "require(tx.origin == owner);") :
    ((txOriginDetect code "solidity").countP
      (fun f => f.rule_id == "SEN-005" && f.line_number == some (i0 + 1))) = 1 ∧
    (∀ code' : String,
      (pySplitLines code').get? i0 = some "require(msg.sender == owner);" →
      ((txOriginDetect code' "solidity").countP
        (fun f => f.rule_id == "SEN-005" && f.line_number == some (i0 + 1))) = 0) := by
  have honly : ∀ (lines : List String) (i : Nat) (l : String) (f : Finding),
      f ∈ txOriginLineFindings lines i l →
      (f.rule_id == "SEN-005" && f.line_number == some (i0 + 1)) = true →
      i = i0 := by
    intro lines i l f hf hpf
    have hline := txOriginLineFindings_line_number lines i l f hf
    have h2 := (Bool.and_eq_true _ _).mp hpf |>.2
    rw [hline] at h2
    have h3 : i + 1 = i0 + 1 := by simpa using beq_iff_eq.mp h2
    omega
  constructor
  · rw [txOriginDetect, if_neg (by simp)]
    rw [countP_lineScan _ _ i0 _ _ (honly (pySplitLines code)) h]
    rw [txOriginLineFindings]
    rw [if_pos (by decide)]
    simp [create_finding]
  · intro code' h'
    rw [txOriginDetect, if_neg (by simp)]
    rw [countP_lineScan _ _ i0 _ _ (honly (pySplitLines code')) h']
    rw [txOriginLineFindings]
    rw [if_neg (by decide)]
    rfl

/-- C3 witness: a two-line contract whose second line is the vulnerable
`require`, and its `msg.sender` repair. -/
theorem txOriginDetect_require_line_witness :
    ((txOriginDetect "function auth() public\nrequire(tx.origin == owner);"
        "solidity").countP
      (fun f => f.rule_id == "SEN-005" && f.line_number == some 2)) = 1 ∧
    ((txOriginDetect "function auth() public\nrequire(msg.sender == owner);"
        "solidity").countP
      (fun f => f.rule_id == "SEN-005" && f.line_number == some 2)) = 0 := by
  have h := txOriginDetect_require_line
    "function auth() public\nrequire(tx.origin == owner);" 1 (by decide)
  exact ⟨h.1, h.2 "function auth() public\nrequire(msg.sender == owner);"
    (by decide)⟩

/-! ### UncheckedCall detector
(`src/backend/app/services/detectors/unchecked_call_detector.py`) -/

/-- Matcher for `\.call\{[^}]*\}\([^)]*\)` (braces escaped as \x7b/\x7d). -/
def matchCallValue (cs : List Char) : Option (List Char) := do
  let cs ← litM ".call\x7b" cs
  let cs := classStarM (fun c => c ≠ '\x7d') cs
  let cs ← litM "\x7d(" cs
  let cs := classStarM (fun c => c ≠ ')') cs
  litM ")" cs

/-- Matcher for `\.call\([^)]*\)`. -/
def matchCallParen (cs : List Char) : Option (List Char) := do
  let cs ← litM ".call(" cs
  let cs := classStarM (fun c => c ≠ ')') cs
  litM ")" cs

/-- Matcher for `\.delegatecall\([^)]*\)`. -/
def matchDelegatecallParen (cs : List Char) : Option (List Char) := do
  let cs ← litM ".delegatecall(" cs
  let cs := classStarM (fun c => c ≠ ')') cs
  litM ")" cs

/-- Matcher for `\.send\([^)]*\)`. -/
def matchSendParen (cs : List Char) : Option (List Char) := do
  let cs ← litM ".send(" cs
  let cs := classStarM (fun c => c ≠ ')') cs
  litM ")" cs

/-- The `call_patterns` list of `UncheckedCallDetector.detect`
(unchecked_call_detector.py lines 49-54), in source order; the associated
call-type labels only feed omitted free-text fields. -/
def uncheckedCallPatterns : List (List Char → Option (List Char)) :=
  [matchCallValue, matchCallParen, matchDelegatecallParen, matchSendParen]

/-- Matcher for `\(\s*bool\s+\w+\s*,?\s*\)` (the `,?` is deterministic
here: when the optional comma is present, skipping it is the only way the
following `\s*\)` can match). -/
def matchBoolTuple (cs : List Char) : Option (List Char) := do
  let cs ← litM "(" cs
  let cs := wsStarM cs
  let cs ← litM "bool" cs
  let cs ← wsPlusM cs
  let (_, cs) ← wordPlusM cs
  let cs := wsStarM cs
  let cs := match cs with
    | ',' :: t => t
    | other => other
  let cs := wsStarM cs
  litM ")" cs

/-- Matcher for `bool\s+\w+\s*=`. -/
def matchBoolAssign (cs : List Char) : Option (List Char) := do
  let cs ← litM "bool" cs
  let cs ← wsPlusM cs
  let (_, cs) ← wordPlusM cs
  let cs := wsStarM cs
  litM "=" cs

/-- One subsequent line 'checks' the call when it contains `require(`,
`assert(` or `if(` (unchecked_call_detector.py lines 75, 81). -/
def lineHasCheck (l : String) : Bool :=
  pyIn "require(" l || pyIn "assert(" l || pyIn "if(" l

/-- The `is_checked` computation of `UncheckedCallDetector.detect`
(lines 69-86): when the line captures the success flag (tuple or plain
bool assignment), look for a check in the following window
`range(i+1, min(i+5, len(lines)))`; otherwise checked only when the call
is already inlined in a `require(`/`assert(`. -/
def uncheckedIsChecked (line : String) (window : List String) : Bool :=
  if reSearch matchBoolTuple line then window.any lineHasCheck
  else if reSearch matchBoolAssign line then window.any lineHasCheck
  else pyIn "require(" line || pyIn "assert(" line

/-- The `for pattern, call_type in call_patterns` loop of
`UncheckedCallDetector.detect` (lines 66-135): first matching pattern
with an unchecked result appends one SEN-004 finding and breaks; a
checked match falls through to the remaining patterns. -/
def uncheckedPatLoop (pats : List (List Char → Option (List Char)))
    (lines : List String) (i : Nat) (line : String) : List Finding :=
  match pats with
  | [] => []
  | pm :: rest =>
    if reSearch pm line then
      if uncheckedIsChecked line ((lines.drop (i + 1)).take 4) then
        uncheckedPatLoop rest lines i line
      else
        [create_finding "SEN-004" "high" (some (i + 1)) (findEnclosingFunction lines i)]
    else uncheckedPatLoop rest lines i line

/-- Per-line body of `UncheckedCallDetector.detect` (lines 58-135):
comment lines (stripped line starting with `//` or `/*`) are skipped. -/
def uncheckedLineFindings (lines : List String) (i : Nat) (line : String) :
    List Finding :=
  if "//".data.isPrefixOf (pyStripLeading line)
      || "/*".data.isPrefixOf (pyStripLeading line) then []
  else uncheckedPatLoop uncheckedCallPatterns lines i line

/-- `UncheckedCallDetector.detect` (unchecked_call_detector.py lines
24-137). -/
def uncheckedCallDetect (code : String) (language : String) : List Finding :=
  if language ≠ "solidity" then []
  else lineScan (uncheckedLineFindings (pySplitLines code)) (pySplitLines code)

theorem uncheckedPatLoop_line_number (lines : List String) (i : Nat)
    (l : String) (f : Finding) :
    ∀ pats, f ∈ uncheckedPatLoop pats lines i l → f.line_number = some (i + 1) := by
  intro pats
  induction pats with
  | nil => intro hf; exact absurd hf (List.not_mem_nil f)
  | cons pm rest ih =>
      intro hf
      unfold uncheckedPatLoop at hf
      split at hf
      · split at hf
        · exact ih hf
        · rcases List.mem_singleton.mp hf with rfl; rfl
      · exact ih hf

theorem uncheckedLineFindings_line_number (lines : List String) (i : Nat)
    (l : String) (f : Finding) (hf : f ∈ uncheckedLineFindings lines i l) :
    f.line_number = some (i + 1) := by
  unfold uncheckedLineFindings at hf
  split at hf
  · exact absurd hf (List.not_mem_nil f)
  · exact uncheckedPatLoop_line_number lines i l f _ hf

/-- A successful lookup makes `drop` expose that element in head position. -/
theorem drop_eq_cons_of_get? {α : Type} :
    ∀ (j : Nat) (xs : List α) (y : α), xs.get? j = some y →
      xs.drop j = y :: xs.drop (j + 1) := by
  intro j
  induction j with
  | zero =>
      intro xs y hget
      cases xs with
      | nil => simp at hget
      | cons a t =>
          rw [List.get?_cons_zero] at hget
          injection hget with h
          subst h
          rfl
  | succ n ih =>
      intro xs y hget
      cases xs with
      | nil => simp at hget
      | cons a t =>
          rw [List.get?_cons_succ] at hget
          simpa [List.drop_succ_cons] using ih t y hget

/-- C4: a line `(bool success, ) = target.call("");` with no
`require`/`assert`/`if` text anywhere in the following five lines yields
exactly one finding on that line; with `require(success, "failed");` on
the very next line it yields none.  Lines are 1-based: index `i0` is line
`i0 + 1`. -/
theorem uncheckedCallDetect_bool_call (code : String) (i0 : Nat)
    (h : (pySplitLines code).get? i0 = some "(bool success, ) = target.call(\"\");") :
    ((∀ l ∈ ((pySplitLines code).drop (i0 + 1)).take 5,
        pyIn "require" l = false ∧ pyIn "assert" l = false ∧ pyIn "if" l = false) →
      ((uncheckedCallDetect code "solidity").countP
        (fun f => f.line_number == some (i0 + 1))) = 1) ∧
    ((pySplitLines code).get? (i0 + 1) = some "require(success, \"failed\");" →
      ((uncheckedCallDetect code "solidity").countP
        (fun f => f.line_number == some (i0 + 1))) = 0) := by
  have honly : ∀ (i : Nat) (l : String) (f : Finding),
      f ∈ uncheckedLineFindings (pySplitLines code) i l →
      (f.line_number == some (i0 + 1)) = true → i = i0 := by
    intro i l f hf hpf
    have hline := uncheckedLineFindings_line_number (pySplitLines code) i l f hf
    rw [hline] at hpf
    have h3 : i + 1 = i0 + 1 := by simpa using beq_iff_eq.mp hpf
    omega
  constructor
  · intro hnone
    rw [uncheckedCallDetect, if_neg (by simp)]
    rw [countP_lineScan _ _ i0 _ _ honly h]
    rw [uncheckedLineFindings, if_neg (by decide)]
    have hwin : (((pySplitLines code).drop (i0 + 1)).take 4).any lineHasCheck = false := by
      rw [← Bool.not_eq_true, List.any_eq_true]
      rintro ⟨l, hl, hchk⟩
      have hl5 : l ∈ ((pySplitLines code).drop (i0 + 1)).take 5 := by
        have heq : (((pySplitLines code).drop (i0 + 1)).take 5).take 4 =
            ((pySplitLines code).drop (i0 + 1)).take 4 := by
          rw [List.take_take]
          norm_num
        exact List.take_subset 4 _ (heq ▸ hl)
      obtain ⟨hr, ha, hi⟩ := hnone l hl5
      unfold lineHasCheck at hchk
      rcases Bool.or_eq_true_iff.mp hchk with hor | hi2
      · rcases Bool.or_eq_true_iff.mp hor with hr2 | ha2
        · have := containsSub_of_isPrefixOf l.data "require".data "require(".data
            (by decide) hr2
          rw [pyIn] at hr
          simp [this] at hr
        · have := containsSub_of_isPrefixOf l.data "assert".data "assert(".data
            (by decide) ha2
          rw [pyIn] at ha
          simp [this] at ha
      · have := containsSub_of_isPrefixOf l.data "if".data "if(".data
          (by decide) hi2
        rw [pyIn] at hi
        simp [this] at hi
    have hchk : uncheckedIsChecked "(bool success, ) = target.call(\"\");"
        (((pySplitLines code).drop (i0 + 1)).take 4) = false := by
      unfold uncheckedIsChecked
      rw [if_pos (show (reSearch matchBoolTuple
        "(bool success, ) = target.call(\"\");") = true by decide)]
      exact hwin
    rw [uncheckedCallPatterns]
    rw [uncheckedPatLoop, if_neg (by decide)]
    rw [uncheckedPatLoop, if_pos (by decide), hchk]
    simp [create_finding]
  · intro hnext
    rw [uncheckedCallDetect, if_neg (by simp)]
    rw [countP_lineScan _ _ i0 _ _ honly h]
    rw [uncheckedLineFindings, if_neg (by decide)]
    have hdrop := drop_eq_cons_of_get? (i0 + 1) (pySplitLines code) _ hnext
    have hwin : (((pySplitLines code).drop (i0 + 1)).take 4).any lineHasCheck = true := by
      rw [hdrop]
      simp only [List.take_succ_cons, List.any_cons]
      rw [show lineHasCheck "require(success, \"failed\");" = true from by decide]
      rfl
    have hchk : uncheckedIsChecked "(bool success, ) = target.call(\"\");"
        (((pySplitLines code).drop (i0 + 1)).take 4) = true := by
      unfold uncheckedIsChecked
      rw [if_pos (show (reSearch matchBoolTuple
        "(bool success, ) = target.call(\"\");") = true by decide)]
      exact hwin
    rw [uncheckedCallPatterns]
    rw [uncheckedPatLoop, if_neg (by decide)]
    rw [uncheckedPatLoop, if_pos (by decide), hchk, if_pos rfl]
    rw [uncheckedPatLoop, if_neg (by decide)]
    rw [uncheckedPatLoop, if_neg (by decide)]
    rfl

/-- C4 witness: the unchecked call alone, and the checked two-line
variant. -/
theorem uncheckedCallDetect_bool_call_witness :
    ((uncheckedCallDetect "(bool success, ) = target.call(\"\");"
        "solidity").countP (fun f => f.line_number == some 1)) = 1 ∧
    ((uncheckedCallDetect
        "(bool success, ) = target.call(\"\");\nrequire(success, \"failed\");"
        "solidity").countP (fun f => f.line_number == some 1)) = 0 := by
  constructor
  · exact (uncheckedCallDetect_bool_call "(bool success, ) = target.call(\"\");"
      0 (by decide)).1 (by decide)
  · exact (uncheckedCallDetect_bool_call
      "(bool success, ) = target.call(\"\");\nrequire(success, \"failed\");"
      0 (by decide)).2 (by decide)

/-! ### Reentrancy detector
(`src/backend/app/services/detectors/reentrancy_detector.py`) -/

/-- The `external_call_patterns` test (reentrancy_detector.py lines
54-71): each regex (`\.call\{`, `\.call\(`, `\.delegatecall\(`,
`\.send\(`, `\.transfer\(`) is literal, so `re.search` truthiness is
substring containment (braces escaped as \x7b). -/
def hasExternalCall (line : String) : Bool :=
  pyIn ".call\x7b" line || pyIn ".call(" line || pyIn ".delegatecall(" line ||
  pyIn ".send(" line || pyIn ".transfer(" line

/-- Matcher for the first alternative `\w+\[[\w\.]+\]\s*=` of
`state_change_pattern`. -/
def matchBracketAssign (cs : List Char) : Option (List Char) := do
  let (_, cs) ← wordPlusM cs
  let cs ← litM "[" cs
  let cs ← classPlusM (fun c => isPyWord c || c = '.') cs
  let cs ← litM "]" cs
  let cs := wsStarM cs
  litM "=" cs

/-- Matcher for the second alternative `\w+\s*=` of
`state_change_pattern`. -/
def matchLooseAssign (cs : List Char) : Option (List Char) := do
  let (_, cs) ← wordPlusM cs
  let cs := wsStarM cs
  litM "=" cs

/-- Truthiness of `re.search(r'\w+\[[\w\.]+\]\s*=|\w+\s*=', line)`: the
alternation occurs somewhere iff either alternative occurs somewhere. -/
def stateChangeMatch (line : String) : Bool :=
  reSearch matchBracketAssign line || reSearch matchLooseAssign line

/-- The look-ahead stop condition (reentrancy_detector.py line 81):
`'function ' in lines[j] or lines[j].strip().startswith('}')`. -/
def isFunctionBoundary (l : String) : Bool :=
  pyIn "function " l || "\x7d".data.isPrefixOf (pyStripLeading l)

/-- The `for j in range(i+1, min(i+11, len(lines)))` look-ahead
(reentrancy_detector.py lines 79-87) on the 10-line window: stop at a
function boundary, report true at the first state-change match. -/
def scanWindow : List String → Bool
  | [] => false
  | l :: rest =>
    if isFunctionBoundary l then false
    else if stateChangeMatch l then true
    else scanWindow rest

/-- Per-line body of the external-call loop of
`ReentrancyDetector.detect` (lines 67-125); `_extract_function_name` is
the shared backward scan.  (The `functions` kwarg read on line 48 is
never used afterwards and is omitted.) -/
def reentrancyLineFindings (lines : List String) (i : Nat) (line : String) :
    List Finding :=
  if hasExternalCall line then
    if scanWindow ((lines.drop (i + 1)).take 10) then
      [create_finding "SEN-001" "critical" (some (i + 1)) (findEnclosingFunction lines i)]
    else []
  else []

/-- Position of the last `.*payable`-style match: greatest index of the
segment before the next newline at which the literal `payable` starts
(the greedy `.*` backtracks from the right).  The candidate list is
ascending, so its last element is the greatest. -/
def lastPayableIdx (rest : List Char) : Option Nat :=
  let seg := rest.takeWhile (fun c => c ≠ '\n')
  (((List.range (seg.length + 1)).filter
    (fun p => "payable".data.isPrefixOf (seg.drop p)))).getLast?

/-- Matcher for the `\s+.*payable` tail of the payable pattern,
returning consumed length.  Python tries the `\s+` run greedily from its
maximal length down to 1; for each, `.*` cannot cross a newline and
backtracks to the last `payable` (which, starting with a non-newline
character, always lies inside the newline-free segment). -/
def tryPayableW (cs : List Char) : Nat → Option Nat
  | 0 => none
  | w + 1 =>
    match lastPayableIdx (cs.drop (w + 1)) with
    | some p => some (w + 1 + p + 7)
    | none => tryPayableW cs w

/-- Matcher for `function\s+(\w+)\([^)]*\)\s+.*payable` (reentrancy
payable pattern, line 128), returning consumed length and group 1. -/
def matchPayable (cs : List Char) : Option (Nat × List Char) := do
  let cs1 ← litM "function" cs
  let cs2 ← wsPlusM cs1
  let (name, cs3) ← wordPlusM cs2
  let cs4 ← litM "(" cs3
  let cs5 := classStarM (fun c => c ≠ ')') cs4
  let cs6 ← litM ")" cs5
  let k ← tryPayableW cs6 (cs6.takeWhile isPyWs).length
  pure (cs.length - cs6.length + k, name)

/-- `re.finditer`: repeated leftmost search, resuming after each match
end (or one past its start for an empty match, as Python does).  Fuel is
`cs.length + 1`: the position strictly increases each step, so the fuel
can never be exhausted before the search fails. -/
def findIterAux {α : Type} (m : List Char → Option (Nat × α)) (cs : List Char) :
    Nat → Nat → List (Nat × Nat × α)
  | 0, _ => []
  | fuel + 1, pos =>
    match firstMatchAux m (cs.drop pos) with
    | none => []
    | some (s, (len, a)) =>
      (pos + s, pos + s + len, a) ::
        findIterAux m cs fuel (max (pos + s + len) (pos + s + 1))

/-- `re.finditer(pattern, code)` as the list of (start, end, payload). -/
def findIter {α : Type} (m : List Char → Option (Nat × α)) (cs : List Char) :
    List (Nat × Nat × α) :=
  findIterAux m cs (cs.length + 1) 0

/-- `code[:pos].count('\n') + 1` — 1-based line number of a character
position. -/
def lineNumAt (cs : List Char) (pos : Nat) : Nat :=
  ((cs.take pos).countP (fun c => c = '\n')) + 1

/-- The payable-function loop of `ReentrancyDetector.detect` (lines
127-158): for each payable signature match, when the surrounding context
`code[max(0, start-200):end+500]` lacks `nonReentrant`, append a SEN-001
finding downgraded to severity "high". -/
def payableFindings (code : String) : List Finding :=
  (findIter matchPayable code.data).flatMap (fun m =>
    if containsSub ((code.data.take (m.2.1 + 500)).drop (m.1 - 200))
        "nonReentrant".data then []
    else
      [{ create_finding "SEN-001" "critical" (some (lineNumAt code.data m.1))
          (some (String.mk m.2.2)) with severity := "high" }])

/-- `ReentrancyDetector.detect` (reentrancy_detector.py lines 23-160):
the per-line external-call scan followed by the payable-guard scan. -/
def reentrancyDetect (code : String) (language : String) : List Finding :=
  if language ≠ "solidity" then []
  else
    lineScan (reentrancyLineFindings (pySplitLines code)) (pySplitLines code)
      ++ payableFindings code

theorem reentrancyLineFindings_fields (lines : List String) (i : Nat)
    (l : String) (f : Finding) (hf : f ∈ reentrancyLineFindings lines i l) :
    f.line_number = some (i + 1) ∧ f.severity = "critical" := by
  unfold reentrancyLineFindings at hf
  split at hf
  · split at hf
    · rcases List.mem_singleton.mp hf with rfl; exact ⟨rfl, rfl⟩
    · exact absurd hf (List.not_mem_nil f)
  · exact absurd hf (List.not_mem_nil f)

theorem payableFindings_severity (code : String) (f : Finding)
    (hf : f ∈ payableFindings code) : f.severity = "high" := by
  unfold payableFindings at hf
  rcases List.mem_flatMap.mp hf with ⟨m, _, hfm⟩
  split at hfm
  · exact absurd hfm (List.not_mem_nil f)
  · rcases List.mem_singleton.mp hfm with rfl; rfl

/-- If the window holds a state-change line preceded (inclusively) by no
function boundary, the look-ahead reports true. -/
theorem scanWindow_eq_true :
    ∀ (w : List String) (j : Nat) (y : String), w.get? j = some y →
      stateChangeMatch y = true →
      (∀ l ∈ w.take (j + 1), isFunctionBoundary l = false) →
      scanWindow w = true := by
  intro w
  induction w with
  | nil => intro j y hget; simp at hget
  | cons l rest ih =>
      intro j y hget hmatch hnb
      have hl : isFunctionBoundary l = false :=
        hnb l (by simp [List.take_succ_cons])
      cases j with
      | zero =>
          rw [List.get?_cons_zero] at hget
          injection hget with h
          subst h
          unfold scanWindow
          rw [hl, hmatch]
          rfl
      | succ j' =>
          rw [List.get?_cons_succ] at hget
          unfold scanWindow
          rw [hl]
          cases hsc : stateChangeMatch l
          · simp only [Bool.false_eq_true, if_false, if_neg]
            exact ih j' y hget hmatch (fun l' hl' =>
              hnb l' (by simp [List.take_succ_cons, hl']))
          · rfl

/-- C5: an external call on line `i0 + 1` followed within the same
function (no boundary in between) by a bracketed state write `k ≤ 10`
lines later yields exactly one critical finding on the call line. -/
theorem reentrancyDetect_call_before_write (code : String) (i0 k : Nat)
    (x y : String)
    (hx : (pySplitLines code).get? i0 = some x)
    (hcall : pyIn ".call(" x = true)
    (hk1 : 1 ≤ k) (hk10 : k ≤ 10)
    (hy : (pySplitLines code).get? (i0 + k) = some y)
    (hwrite : reSearch matchBracketAssign y = true)
    (hnb : ∀ l ∈ ((pySplitLines code).drop (i0 + 1)).take k,
      isFunctionBoundary l = false) :
    ((reentrancyDetect code "solidity").countP
      (fun f => f.severity == "critical" && f.line_number == some (i0 + 1))) = 1 := by
  have honly : ∀ (i : Nat) (l : String) (f : Finding),
      f ∈ reentrancyLineFindings (pySplitLines code) i l →
      (f.severity == "critical" && f.line_number == some (i0 + 1)) = true →
      i = i0 := by
    intro i l f hf hpf
    have hline := (reentrancyLineFindings_fields (pySplitLines code) i l f hf).1
    have h2 := (Bool.and_eq_true _ _).mp hpf |>.2
    rw [hline] at h2
    have h3 : i + 1 = i0 + 1 := by simpa using beq_iff_eq.mp h2
    omega
  rw [reentrancyDetect, if_neg (by simp), List.countP_append]
  have hpay : (payableFindings code).countP
      (fun f => f.severity == "critical" && f.line_number == some (i0 + 1)) = 0 := by
    rw [List.countP_eq_zero]
    intro f hf hpf
    have hsev := payableFindings_severity code f hf
    have h1 := (Bool.and_eq_true _ _).mp hpf |>.1
    rw [hsev] at h1
    exact absurd (beq_iff_eq.mp h1) (by decide)
  rw [hpay, countP_lineScan _ _ i0 _ _ honly hx]
  have hwin : scanWindow (((pySplitLines code).drop (i0 + 1)).take 10) = true := by
    refine scanWindow_eq_true _ (k - 1) y ?_ ?_ ?_
    · rw [List.get?_take (by omega), List.get?_drop]
      rw [show i0 + 1 + (k - 1) = i0 + k by omega]
      exact hy
    · unfold stateChangeMatch
      rw [hwrite]
      rfl
    · intro l hl
      refine hnb l ?_
      rw [List.take_take] at hl
      rw [show min (k - 1 + 1) 10 = k by omega] at hl
      exact hl
  rw [reentrancyLineFindings]
  rw [if_pos (show hasExternalCall x = true by unfold hasExternalCall; rw [hcall]; simp)]
  rw [if_pos hwin]
  simp [create_finding]

/-- C5 witness: a call on line 1 and a bracketed balance write on line 2. -/
theorem reentrancyDetect_call_before_write_witness :
    ((reentrancyDetect "x.call(abc);\nbalances[msg.sender] = 0;"
        "solidity").countP
      (fun f => f.severity == "critical" && f.line_number == some 1)) = 1 :=
  reentrancyDetect_call_before_write "x.call(abc);\nbalances[msg.sender] = 0;"
    0 1 "x.call(abc);" "balances[msg.sender] = 0;" (by decide) (by decide)
    (by decide) (by decide) (by decide) (by decide) (by decide)

/-! ### IntegerOverflow detector
(`src/backend/app/services/detectors/integer_overflow_detector.py`) -/

/-- Python `int` on a digit run. -/
def digitsToNat (ds : List Char) : Nat :=
  ds.foldl (fun n c => n * 10 + (c.toNat - '0'.toNat)) 0

/-- Matcher for `pragma\s+solidity\s+[\^~]?(\d+\.\d+\.\d+)` yielding the
`map(int, version.split('.'))` triple.  The optional `[\^~]?` is
deterministic: the following `\d+` cannot match `^`/`~`. -/
def matchPragma (cs : List Char) : Option (Nat × Nat × Nat) := do
  let cs ← litM "pragma" cs
  let cs ← wsPlusM cs
  let cs ← litM "solidity" cs
  let cs ← wsPlusM cs
  let cs := match cs with
    | c :: t => if c = '^' || c = '~' then t else c :: t
    | [] => []
  let (d1, cs) ← digitPlusM cs
  let cs ← litM "." cs
  let (d2, cs) ← digitPlusM cs
  let cs ← litM "." cs
  let (d3, _) ← digitPlusM cs
  pure (digitsToNat d1, digitsToNat d2, digitsToNat d3)

/-- The `re.search(version_pattern, code)` of
`IntegerOverflowDetector.detect` (lines 48-53): leftmost pragma with its
parsed (major, minor, patch). -/
def pragmaVersion (code : String) : Option (Nat × Nat × Nat) :=
  (firstMatchAux matchPragma code.data).map (fun p => p.2)

/-- Matcher for `unchecked\s*\{` returning consumed length (brace
escaped as \x7b). -/
def matchUnchecked (cs : List Char) : Option (Nat × Unit) := do
  let cs1 ← litM "unchecked" cs
  let cs2 := wsStarM cs1
  let cs3 ← litM "\x7b" cs2
  pure (cs.length - cs3.length, ())

/-- The Solidity-0.8+ branch (lines 57-87): one finding per `unchecked`
block occurrence, severity overridden to "medium". -/
def uncheckedBlockFindings (code : String) : List Finding :=
  (findIter matchUnchecked code.data).map (fun m =>
    { create_finding "SEN-003" "high" (some (lineNumAt code.data m.1)) none with
        severity := "medium" })

/-- Matcher for `\w+\s*\+=\s*\w+` returning consumed length. -/
def matchAddAssign (cs : List Char) : Option (Nat × Unit) := do
  let (_, cs1) ← wordPlusM cs
  let cs2 := wsStarM cs1
  let cs3 ← litM "+=" cs2
  let cs4 := wsStarM cs3
  let (_, cs5) ← wordPlusM cs4
  pure (cs.length - cs5.length, ())

/-- Matcher for `\w+\s*-=\s*\w+`. -/
def matchSubAssign (cs : List Char) : Option (Nat × Unit) := do
  let (_, cs1) ← wordPlusM cs
  let cs2 := wsStarM cs1
  let cs3 ← litM "-=" cs2
  let cs4 := wsStarM cs3
  let (_, cs5) ← wordPlusM cs4
  pure (cs.length - cs5.length, ())

/-- Matcher for `\w+\s*\*=\s*\w+`. -/
def matchMulAssign (cs : List Char) : Option (Nat × Unit) := do
  let (_, cs1) ← wordPlusM cs
  let cs2 := wsStarM cs1
  let cs3 ← litM "*=" cs2
  let cs4 := wsStarM cs3
  let (_, cs5) ← wordPlusM cs4
  pure (cs.length - cs5.length, ())

/-- Matcher for `\w+\s*=\s*\w+\s*\+\s*\w+`. -/
def matchAddExpr (cs : List Char) : Option (Nat × Unit) := do
  let (_, cs1) ← wordPlusM cs
  let cs2 := wsStarM cs1
  let cs3 ← litM "=" cs2
  let cs4 := wsStarM cs3
  let (_, cs5) ← wordPlusM cs4
  let cs6 := wsStarM cs5
  let cs7 ← litM "+" cs6
  let cs8 := wsStarM cs7
  let (_, cs9) ← wordPlusM cs8
  pure (cs.length - cs9.length, ())

/-- Matcher for `\w+\s*=\s*\w+\s*-\s*\w+`. -/
def matchSubExpr (cs : List Char) : Option (Nat × Unit) := do
  let (_, cs1) ← wordPlusM cs
  let cs2 := wsStarM cs1
  let cs3 ← litM "=" cs2
  let cs4 := wsStarM cs3
  let (_, cs5) ← wordPlusM cs4
  let cs6 := wsStarM cs5
  let cs7 ← litM "-" cs6
  let cs8 := wsStarM cs7
  let (_, cs9) ← wordPlusM cs8
  pure (cs.length - cs9.length, ())

/-- Matcher for `\w+\s*=\s*\w+\s*\*\s*\w+`. -/
def matchMulExpr (cs : List Char) : Option (Nat × Unit) := do
  let (_, cs1) ← wordPlusM cs
  let cs2 := wsStarM cs1
  let cs3 ← litM "=" cs2
  let cs4 := wsStarM cs3
  let (_, cs5) ← wordPlusM cs4
  let cs6 := wsStarM cs5
  let cs7 ← litM "*" cs6
  let cs8 := wsStarM cs7
  let (_, cs9) ← wordPlusM cs8
  pure (cs.length - cs9.length, ())

/-- The `arithmetic_patterns` list (lines 90-97), in source order. -/
def arithPatterns : List (List Char → Option (Nat × Unit)) :=
  [matchAddAssign, matchSubAssign, matchMulAssign,
   matchAddExpr, matchSubExpr, matchMulExpr]

/-- `code.rfind('\n', 0, pos)`, `None` standing for Python's `-1`. -/
def lastNlBefore (cs : List Char) (pos : Nat) : Option Nat :=
  ((List.range pos).filter (fun i => cs.get? i == some '\n')).getLast?

/-- `code.rfind('\n', 0, pos) + 1`. -/
def lineStartAt (cs : List Char) (pos : Nat) : Nat :=
  match lastNlBefore cs pos with
  | some i => i + 1
  | none => 0

/-- `code.find('\n', pos)`, `None` standing for Python's `-1`. -/
def findNlFrom (cs : List Char) (pos : Nat) : Option Nat :=
  ((List.range cs.length).filter
    (fun i => decide (pos ≤ i) && (cs.get? i == some '\n'))).head?

/-- The `line` slice of the comment check (lines 106-107):
`code[line_start:code.find('\n', match.start())]`.  When no newline
follows, Python's `find` returns `-1` and the slice `[line_start:-1]`
drops the final character of the source — reproduced faithfully. -/
def commentLineSlice (cs : List Char) (start : Nat) : List Char :=
  match findNlFrom cs start with
  | some e => (cs.take e).drop (lineStartAt cs start)
  | none => (cs.take (cs.length - 1)).drop (lineStartAt cs start)

/-- The comment skip (lines 105-109): `'//' in line and line.index('//')
< match.start() - line_start`. -/
def skipAsComment (cs : List Char) (start : Nat) : Bool :=
  match firstMatchAux (litM "//") (commentLineSlice cs start) with
  | some (idx, _) => decide (idx < start - lineStartAt cs start)
  | none => false

/-- The inner `for match in re.finditer(...)` loop of the pre-0.8 branch
(lines 103-148): skip comment matches (`continue`), and `break` right
after appending the first finding — at most one finding per pattern over
the whole source. -/
def firstNonCommentStart (cs : List Char) :
    List (Nat × Nat × Unit) → Option Nat
  | [] => none
  | m :: rest =>
    if skipAsComment cs m.1 then firstNonCommentStart cs rest
    else some m.1

/-- The pre-0.8 arithmetic findings (lines 102-148), one SEN-003/high
finding per pattern at its first non-comment match. -/
def arithFindings (code : String) : List Finding :=
  arithPatterns.flatMap (fun pm =>
    match firstNonCommentStart code.data (findIter pm code.data) with
    | some s => [create_finding "SEN-003" "high" (some (lineNumAt code.data s)) none]
    | none => [])

/-- `uses_safemath` (line 100): `'SafeMath' in code or 'using SafeMath
for' in code`. -/
def usesSafeMath (code : String) : Bool :=
  pyIn "SafeMath" code || pyIn "using SafeMath for" code

/-- The whole pre-0.8 path of `detect` (lines 89-150): nothing when a
SafeMath marker is present, otherwise the arithmetic findings. -/
def arithPathFindings (code : String) : List Finding :=
  if usesSafeMath code then [] else arithFindings code

/-- `IntegerOverflowDetector.detect` (integer_overflow_detector.py lines
23-150): with a parsed pragma of 0.8+ semantics, only `unchecked` blocks
are flagged (early return); with an older parsed pragma, or none at all,
the pre-0.8 arithmetic path runs. -/
def integerOverflowDetect (code : String) (language : String) : List Finding :=
  if language ≠ "solidity" then []
  else
    match pragmaVersion code with
    | some v =>
        if v.1 > 0 || (v.1 = 0 && decide (v.2.1 ≥ 8)) then
          uncheckedBlockFindings code
        else arithPathFindings code
    | none => arithPathFindings code

/-- C6 evaluation: the spec (and the detector's own in-code comment
"Only report once per line") promise at most one finding per line, but
the `break` only bounds findings per pattern: on a pre-0.8 source whose
second line matches both the `+=` pattern and the `a = b + c` pattern,
`detect` returns two findings that both carry line 2. -/
theorem integerOverflowDetect_two_findings_same_line :
    ((integerOverflowDetect "pragma solidity ^0.4.0;\na += b; x = y + z;"
        "solidity").map Finding.line_number) = [some 2, some 2] := by
  decide

/-- C10: when no version pragma parses, `detect` behaves as the pre-0.8
path: it never reports `unchecked` blocks (every finding keeps the
default "high" severity, never the unchecked branch's "medium"), and it
flags unprotected arithmetic unless a SafeMath marker occurs. -/
theorem integerOverflowDetect_no_pragma (code : String)
    (h : pragmaVersion code = none) :
    integerOverflowDetect code "solidity" =
      (if usesSafeMath code then [] else arithFindings code) ∧
    ∀ f ∈ integerOverflowDetect code "solidity", f.severity = "high" := by
  have hpath : integerOverflowDetect code "solidity" = arithPathFindings code := by
    rw [integerOverflowDetect, if_neg (by simp), h]
  constructor
  · rw [hpath, arithPathFindings]
  · intro f hf
    rw [hpath, arithPathFindings] at hf
    split at hf
    · exact absurd hf (List.not_mem_nil f)
    · rcases List.mem_flatMap.mp hf with ⟨pm, _, hfm⟩
      split at hfm
      · rcases List.mem_singleton.mp hfm with rfl; rfl
      · exact absurd hfm (List.not_mem_nil f)

/-- C10 witness: a pragma-free one-liner with a bare `-=`. -/
theorem integerOverflowDetect_no_pragma_witness :
    integerOverflowDetect "a -= b;" "solidity" =
      (if usesSafeMath "a -= b;" then [] else arithFindings "a -= b;") ∧
    ∀ f ∈ integerOverflowDetect "a -= b;" "solidity", f.severity = "high" :=
  integerOverflowDetect_no_pragma "a -= b;" (by decide)

/-! ### AccessControl detector
(`src/backend/app/services/detectors/access_control_detector.py`) -/

/-- `critical_keywords` (access_control_detector.py lines 51-55). -/
def accessControlCriticalKeywords : List String :=
  ["selfdestruct", "suicide", "delegatecall",
   "transferOwnership", "withdraw", "mint",
   "burn", "pause", "unpause", "setAdmin"]

/-- Matcher for
`function\s+(\w+)\s*\([^)]*\)\s+(public|external|private|internal)?([^{]*)\{`
returning consumed length, group 1 (name), group 2 (visibility keyword,
tried in source order) and group 3 (modifiers section).  The optional
group is deterministic here: when its keyword literal fails, or when the
tail `([^{]*)\{` fails after it, the alternative parses also fail at the
same first `{`, so presence is decided by the keyword literal alone. -/
def matchACFunction (cs : List Char) :
    Option (Nat × (List Char × Option String × List Char)) := do
  let cs1 ← litM "function" cs
  let cs2 ← wsPlusM cs1
  let (name, cs3) ← wordPlusM cs2
  let cs4 := wsStarM cs3
  let cs5 ← litM "(" cs4
  let cs6 := classStarM (fun c => c ≠ ')') cs5
  let cs7 ← litM ")" cs6
  let cs8 ← wsPlusM cs7
  let (vis, cs9) :=
    match litM "public" cs8 with
    | some r => (some "public", r)
    | none =>
      match litM "external" cs8 with
      | some r => (some "external", r)
      | none =>
        match litM "private" cs8 with
        | some r => (some "private", r)
        | none =>
          match litM "internal" cs8 with
          | some r => (some "internal", r)
          | none => (none, cs8)
  let mods := cs9.takeWhile (fun c => c ≠ '\x7b')
  let cs10 ← litM "\x7b" (cs9.drop mods.length)
  pure (cs.length - cs10.length, (name, vis, mods))

/-- `AccessControlDetector._find_function_end` (lines 164-176):
simplified brace matching from `start` with initial depth 1 (braces
written \x7b/\x7d). -/
def findFunctionEndAux : List Char → Nat → Nat → Nat
  | [], _, i => i
  | c :: t, bc, i =>
    if bc = 0 then i
    else
      findFunctionEndAux t
        (if c = '\x7b' then bc + 1 else if c = '\x7d' then bc - 1 else bc)
        (i + 1)

/-- `AccessControlDetector.detect` (access_control_detector.py lines
26-162): per function-signature match, flag critical-operation bodies
lacking an authorization marker (SEN-002/critical) and unguarded
initializer-style functions (SEN-002 downgraded to high). -/
def accessControlDetect (code : String) (language : String) : List Finding :=
  if language ≠ "solidity" then []
  else
    (findIter matchACFunction code.data).flatMap (fun m =>
      let name := String.mk m.2.2.1
      let vis := (m.2.2.2.1).getD "public"
      let mods := m.2.2.2.2
      if containsSub mods "view".data || containsSub mods "pure".data then []
      else
        let fend := findFunctionEndAux (code.data.drop m.2.1) 1 m.2.1
        let body := (code.data.take fend).drop m.2.1
        (if accessControlCriticalKeywords.any (fun kw => containsSub body kw.data)
            then
              if (["onlyOwner", "onlyAdmin", "onlyRole", "nonReentrant"].any
                    (fun md => containsSub mods md.data))
                  || containsSub body "require(msg.sender ==".data
                  || containsSub body "require(owner ==".data then []
              else
                [create_finding "SEN-002" "critical"
                  (some (lineNumAt code.data m.1)) (some name)]
            else [])
          ++
          (if (name = "initialize" || name = "init" || name = "setup")
              && (vis = "public" || vis = "external")
              && !containsSub body "initialized".data
              && !containsSub mods "initializer".data then
            [{ create_finding "SEN-002" "critical"
                (some (lineNumAt code.data m.1)) (some name) with
                  severity := "high" }]
          else []))

/-! ### Static analysis orchestrator
(`src/backend/app/services/analyzers/static_analyzer.py`)

`StaticAnalyzer.analyze` (lines 34-91) runs the five registered
detectors in order inside `try/except`: a raising detector is logged and
skipped (`continue`), the others' findings are concatenated.  A
detector run is modelled as `Except String (List Finding)` — `ok` its
finding list, `error` an escaped exception.  (The `extract_functions` /
`find_external_calls` results computed on lines 61-62 are passed as
kwargs that no detector uses — the only reader, reentrancy's line 48,
never uses the value — so they do not appear in the model; the embedded
detectors themselves are total, so the outer `try` is vacuous.) -/

/-- The `for detector in self.detectors` loop with its per-detector
`try/except... continue` (lines 67-83). -/
def runDetectors : List (Except String (List Finding)) → List Finding
  | [] => []
  | Except.ok fs :: rest => fs ++ runDetectors rest
  | Except.error _ :: rest => runDetectors rest

/-- `StaticAnalyzer.analyze` given the per-detector outcomes: the
language gate (line 51) then the isolated detector loop. -/
def analyzeWith (language : String)
    (results : List (Except String (List Finding))) : List Finding :=
  if language = "solidity" || language = "vyper" then runDetectors results
  else []

/-- The detector registry in registration order (lines 24-30); the five
embedded detectors are total, hence all `ok`. -/
def staticRegistry (code : String) (language : String) :
    List (Except String (List Finding)) :=
  [Except.ok (reentrancyDetect code language),
   Except.ok (accessControlDetect code language),
   Except.ok (integerOverflowDetect code language),
   Except.ok (uncheckedCallDetect code language),
   Except.ok (txOriginDetect code language)]

/-- `StaticAnalyzer.analyze` itself. -/
def staticAnalyzerAnalyze (code : String) (language : String) : List Finding :=
  analyzeWith language (staticRegistry code language)

/-- Projection selecting the successful runs. -/
def okFindings : Except String (List Finding) → Option (List Finding)
  | Except.ok fs => some fs
  | Except.error _ => none

theorem runDetectors_eq_flatten :
    ∀ rs : List (Except String (List Finding)),
      runDetectors rs = ((rs.filterMap okFindings)).flatten := by
  intro rs
  induction rs with
  | nil => rfl
  | cons r rest ih =>
      cases r with
      | ok fs => simp [runDetectors, okFindings, ih]
      | error e => simp [runDetectors, okFindings, ih]

/-- C7: with a supported language, an analysis in which one detector
raises returns exactly the concatenation, in registration order, of the
remaining (non-raising) detectors' findings — the failure aborts neither
the other detectors nor the analysis (which, being total, lets no
exception escape). -/
theorem staticAnalyze_fault_isolation (language : String)
    (hlang : language = "solidity" ∨ language = "vyper")
    (pre post : List (Except String (List Finding))) (e : String) :
    analyzeWith language (pre ++ Except.error e :: post) =
      (((pre ++ post).filterMap okFindings)).flatten := by
  have hgate : (language = "solidity" || language = "vyper") = true := by
    rcases hlang with h | h <;> simp [h]
  rw [analyzeWith, if_pos hgate, runDetectors_eq_flatten]
  simp [List.filterMap_append, okFindings]

/-- C7 witness: the middle of three detectors raises; the outer two
findings survive in order. -/
theorem staticAnalyze_fault_isolation_witness :
    analyzeWith "solidity"
      [Except.ok [create_finding "SEN-001" "critical" (some 1) none],
       Except.error "detector blew up",
       Except.ok [create_finding "SEN-005" "high" (some 7) none]] =
      [create_finding "SEN-001" "critical" (some 1) none,
       create_finding "SEN-005" "high" (some 7) none] := by
  have h := staticAnalyze_fault_isolation "solidity" (Or.inl rfl)
    [Except.ok [create_finding "SEN-001" "critical" (some 1) none]]
    [Except.ok [create_finding "SEN-005" "high" (some 7) none]]
    "detector blew up"
  exact h.trans rfl

/-! ### Gas analyzer (`src/backend/app/services/gas_analyzer.py`)

Entries carry `issue`, `line`, `current_cost`, `optimized_cost`,
`savings`, `recommendation`; only `line` and the `savings` estimate
(the field the aggregate is computed from) are modelled — the rest is
free text no verified property mentions. -/

/-- One gas optimization entry (projection of the heuristic dicts). -/
structure GasOptimization where
  line : Nat
  savings : String
  deriving Repr, DecidableEq

/-- Matcher for `\w+\[\w+\]` (storage access, gas_analyzer.py line 85). -/
def matchIndexAccess (cs : List Char) : Option (List Char) := do
  let (_, cs1) ← wordPlusM cs
  let cs2 ← litM "[" cs1
  let (_, cs3) ← wordPlusM cs2
  litM "]" cs3

/-- `GasAnalyzer._detect_storage_in_loops` (lines 72-107): for each line
opening a `for` loop, search the following `range(i+1, min(i+15,
len(lines)))` window for a storage access; the first hit appends one
entry (savings "2100 * (n-1) gas") and breaks. -/
def detectStorageInLoops (code : String) : List GasOptimization :=
  lineScan
    (fun i line =>
      if pyIn "for(" line || pyIn "for (" line then
        if (((pySplitLines code).drop (i + 1)).take 14).any
            (fun l => reSearch matchIndexAccess l || pyIn "storage" l) then
          [{ line := i + 1, savings := "2100 * (n-1) gas" }]
        else []
      else [])
    (pySplitLines code)

/-- Matcher for `uint256\s+\w+;\s*\n\s*uint8\s+\w+;` (line 114).  The
`\s*\n\s*` gap consumes the whole whitespace run between the semicolons
(`uint8` starts with a non-whitespace character) and matches iff that
run holds a newline. -/
def matchPoorPacking (cs : List Char) : Option (Nat × Unit) := do
  let cs1 ← litM "uint256" cs
  let cs2 ← wsPlusM cs1
  let (_, cs3) ← wordPlusM cs2
  let cs4 ← litM ";" cs3
  let gap := cs4.takeWhile isPyWs
  let _ ← (if gap.contains '\n' then some () else none)
  let cs5 ← litM "uint8" (cs4.drop gap.length)
  let cs6 ← wsPlusM cs5
  let (_, cs7) ← wordPlusM cs6
  let cs8 ← litM ";" cs7
  pure (cs.length - cs8.length, ())

/-- `GasAnalyzer._detect_poor_storage_packing` (lines 109-140): one
entry per pattern match, savings "20,000 gas on deployment". -/
def detectPoorStoragePacking (code : String) : List GasOptimization :=
  (findIter matchPoorPacking code.data).map (fun m =>
    { line := lineNumAt code.data m.1, savings := "20,000 gas on deployment" })

/-- Matcher for `function\s+(\w+)\([^)]*\)\s+public` (line 147) with
group 1. -/
def matchPublicFn (cs : List Char) : Option (Nat × List Char) := do
  let cs1 ← litM "function" cs
  let cs2 ← wsPlusM cs1
  let (name, cs3) ← wordPlusM cs2
  let cs4 ← litM "(" cs3
  let cs5 := classStarM (fun c => c ≠ ')') cs4
  let cs6 ← litM ")" cs5
  let cs7 ← wsPlusM cs6
  let cs8 ← litM "public" cs7
  pure (cs.length - cs8.length, name)

/-- Occurrence test at position `p` used by the `\b name \b` count. -/
def isWordAt (cs : List Char) (p : Nat) : Bool :=
  match cs.get? p with
  | some c => isPyWord c
  | none => false

/-- `len(re.findall(rf'\b{function_name}\b', code))` (line 155): the
name consists of word characters, so word-boundary occurrences cannot
overlap and the non-overlapping `findall` count equals the count of
boundary-delimited start positions. -/
def countWordOccurrences (cs : List Char) (name : List Char) : Nat :=
  (List.range (cs.length + 1)).countP (fun p =>
    name.isPrefixOf (cs.drop p)
      && !(decide (0 < p) && isWordAt cs (p - 1))
      && !(isWordAt cs (p + name.length)))

/-- `GasAnalyzer._detect_public_functions` (lines 142-178): a public
function whose name occurs at most twice in the source yields one entry,
savings "~200 gas per call". -/
def detectPublicFunctions (code : String) : List GasOptimization :=
  (findIter matchPublicFn code.data).flatMap (fun m =>
    if countWordOccurrences code.data m.2.2 ≤ 2 then
      [{ line := lineNumAt code.data m.1, savings := "~200 gas per call" }]
    else [])

/-- Matcher for `uint\s+\w+\s*=\s*0;` (line 186). -/
def matchUintZeroInit (cs : List Char) : Option (Nat × Unit) := do
  let cs1 ← litM "uint" cs
  let cs2 ← wsPlusM cs1
  let (_, cs3) ← wordPlusM cs2
  let cs4 := wsStarM cs3
  let cs5 ← litM "=" cs4
  let cs6 := wsStarM cs5
  let cs7 ← litM "0;" cs6
  pure (cs.length - cs7.length, ())

/-- Matcher for `bool\s+\w+\s*=\s*false;` (line 187). -/
def matchBoolFalseInit (cs : List Char) : Option (Nat × Unit) := do
  let cs1 ← litM "bool" cs
  let cs2 ← wsPlusM cs1
  let (_, cs3) ← wordPlusM cs2
  let cs4 := wsStarM cs3
  let cs5 ← litM "=" cs4
  let cs6 := wsStarM cs5
  let cs7 ← litM "false;" cs6
  pure (cs.length - cs7.length, ())

/-- `GasAnalyzer._detect_redundant_initialization` (lines 180-210): one
entry per match of either default-value pattern, savings "~5 gas". -/
def detectRedundantInit (code : String) : List GasOptimization :=
  [matchUintZeroInit, matchBoolFalseInit].flatMap (fun pm =>
    (findIter pm code.data).map (fun m =>
      { line := lineNumAt code.data m.1, savings := "~5 gas" }))

/-- One alternative `kw\s+` of the optional visibility group of the
string-usage pattern, followed by the trailing `(\w+)`. -/
def stringUsageBranch (kw : String) (cs : List Char) : Option (List Char) := do
  let cs1 ← litM kw cs
  let cs2 ← wsPlusM cs1
  let (_, cs3) ← wordPlusM cs2
  pure cs3

/-- Matcher for `string\s+(public\s+|private\s+|internal\s+)?(\w+)`
(line 217): the alternatives are tried in source order, then the absent
branch (Python's backtracking does the same). -/
def matchStringUsage (cs : List Char) : Option (Nat × Unit) := do
  let cs1 ← litM "string" cs
  let cs2 ← wsPlusM cs1
  let rest ← stringUsageBranch "public" cs2 <|> stringUsageBranch "private" cs2
    <|> stringUsageBranch "internal" cs2
    <|> (wordPlusM cs2).map (fun pr => pr.2)
  pure (cs.length - rest.length, ())

/-- `GasAnalyzer._detect_string_usage` (lines 212-238): one entry per
match, savings "Variable, typically 1000+ gas". -/
def detectStringUsage (code : String) : List GasOptimization :=
  (findIter matchStringUsage code.data).map (fun m =>
    { line := lineNumAt code.data m.1, savings := "Variable, typically 1000+ gas" })

/-- Matcher for `for\s*\([^;]*;\s*\w+\s*<\s*(\w+)\.length` (line 245). -/
def matchArrayLengthLoop (cs : List Char) : Option (Nat × Unit) := do
  let cs1 ← litM "for" cs
  let cs2 := wsStarM cs1
  let cs3 ← litM "(" cs2
  let cs4 := classStarM (fun c => c ≠ ';') cs3
  let cs5 ← litM ";" cs4
  let cs6 := wsStarM cs5
  let (_, cs7) ← wordPlusM cs6
  let cs8 := wsStarM cs7
  let cs9 ← litM "<" cs8
  let cs10 := wsStarM cs9
  let (_, cs11) ← wordPlusM cs10
  let cs12 ← litM ".length" cs11
  pure (cs.length - cs12.length, ())

/-- `GasAnalyzer._detect_array_length_in_loops` (lines 240-271): one
entry per match, savings "~100 gas per iteration". -/
def detectArrayLengthInLoops (code : String) : List GasOptimization :=
  (findIter matchArrayLengthLoop code.data).map (fun m =>
    { line := lineNumAt code.data m.1, savings := "~100 gas per iteration" })

/-- `GasAnalyzer._extract_gas_value` (lines 273-279): the first digit
run of the free-text estimate as an integer, 0 when none. -/
def extractGasValue (s : String) : Nat :=
  match firstMatchAux digitPlusM s.data with
  | some (_, run, _) => digitsToNat run
  | none => 0

/-- The gas analysis report (`GasAnalyzer.analyze` return dict);
`total_estimated_gas` is always `None` in the source (line 67). -/
structure GasReport where
  total_estimated_gas : Option Nat
  optimizations : List GasOptimization
  potential_savings : String
  deriving Repr, DecidableEq

/-- `GasAnalyzer.analyze` (gas_analyzer.py lines 18-70): the six
heuristics concatenated in source order, with `potential_savings`
rendering the summed extracted estimates, "N/A" when the sum is 0 (and
for non-solidity languages, whose report is empty). -/
def gasAnalyzerAnalyze (code : String) (language : String) : GasReport :=
  if language ≠ "solidity" then
    { total_estimated_gas := none, optimizations := [], potential_savings := "N/A" }
  else
    let optimizations :=
      detectStorageInLoops code ++ detectPoorStoragePacking code ++
      detectPublicFunctions code ++ detectRedundantInit code ++
      detectStringUsage code ++ detectArrayLengthInLoops code
    let total_savings := (optimizations.map (fun o => extractGasValue o.savings)).sum
    { total_estimated_gas := none
      optimizations := optimizations
      potential_savings :=
        if 0 < total_savings then toString total_savings ++ " gas per transaction"
        else "N/A" }

theorem firstMatchAux_digit_none :
    ∀ cs : List Char, (∀ c ∈ cs, isPyDigit c = false) →
      firstMatchAux digitPlusM cs = none := by
  intro cs
  induction cs with
  | nil => intro _; rfl
  | cons c t ih =>
      intro hall
      have hc : isPyDigit c = false := hall c (List.mem_cons_self c t)
      have hd : digitPlusM (c :: t) = none := by
        unfold digitPlusM
        rw [List.takeWhile_cons, hc]
        rfl
      unfold firstMatchAux
      rw [hd, ih (fun x hx => hall x (List.mem_cons_of_mem c hx))]
      rfl

/-- C8: the reported `potential_savings` is exactly the rendering of the
sum of the gas values extracted from the returned optimization entries'
savings estimates — "<sum> gas per transaction" when positive, "N/A"
when zero — and an estimate with no digits contributes 0. -/
theorem gasAnalyzer_potential_savings (code : String) (language : String) :
    ((gasAnalyzerAnalyze code language).potential_savings =
      (if 0 < ((gasAnalyzerAnalyze code language).optimizations.map
            (fun o => extractGasValue o.savings)).sum then
        toString (((gasAnalyzerAnalyze code language).optimizations.map
            (fun o => extractGasValue o.savings)).sum) ++ " gas per transaction"
       else "N/A")) ∧
    ∀ s : String, (∀ c ∈ s.data, isPyDigit c = false) → extractGasValue s = 0 := by
  constructor
  · unfold gasAnalyzerAnalyze
    split
    · simp
    · rfl
  · intro s hs
    unfold extractGasValue
    rw [firstMatchAux_digit_none s.data hs]

/-- C8 witness: a redundant `uint` initialization (5-gas estimate) and a
digitless estimate string. -/
theorem gasAnalyzer_potential_savings_witness :
    ((gasAnalyzerAnalyze "uint a = 0;" "solidity").potential_savings =
      (if 0 < ((gasAnalyzerAnalyze "uint a = 0;" "solidity").optimizations.map
            (fun o => extractGasValue o.savings)).sum then
        toString (((gasAnalyzerAnalyze "uint a = 0;" "solidity").optimizations.map
            (fun o => extractGasValue o.savings)).sum) ++ " gas per transaction"
       else "N/A")) ∧
    extractGasValue "no numeric signal" = 0 :=
  ⟨(gasAnalyzer_potential_savings "uint a = 0;" "solidity").1,
   (gasAnalyzer_potential_savings "uint a = 0;" "solidity").2
     "no numeric signal" (by decide)⟩

/-! ### AI reasoning engine response normalization
(`src/backend/app/services/ai/reasoning_engine.py`,
`AIReasoningEngine._normalize_response`, lines 175-217)

A parsed JSON vulnerability record is a dict of optional fields
(`vuln.get(...)`); `code_quality` is passed through untouched and
carries no verified property, so it is not modelled; the other
passthrough collections keep an opaque payload type. -/

/-- One raw vulnerability record of the external analyzer response. -/
structure AIVulnIn where
  rule_id : Option String
  title : Option String
  severity : Option String
  exploitability : Option String
  category : Option String
  line_number : Option Nat
  line : Option Nat
  function_name : Option String
  function : Option String
  description : Option String
  exploit_scenario : Option String
  recommendation : Option String
  fixed_code : Option String
  cwe_id : Option String
  swc_id : Option String
  confidence : Option Nat
  deriving Repr, DecidableEq

/-- One normalized vulnerability record. -/
structure AIVulnOut where
  rule_id : String
  title : String
  severity : String
  exploitability : String
  category : String
  line_number : Option Nat
  function_name : Option String
  description : String
  exploit_scenario : Option String
  recommendation : Option String
  fixed_code : Option String
  cwe_id : Option String
  swc_id : Option String
  detected_by : String
  confidence : Nat
  deriving Repr, DecidableEq

/-- Python `a or b` on optional numbers: `0` and `None` are falsy
(`vuln.get("line_number") or vuln.get("line")`). -/
def pyOrNat (a b : Option Nat) : Option Nat :=
  match a with
  | some n => if n = 0 then b else some n
  | none => b

/-- Python `a or b` on optional strings: `""` and `None` are falsy. -/
def pyOrStr (a b : Option String) : Option String :=
  match a with
  | some s => if s = "" then b else some s
  | none => b

/-- The per-record normalization (reasoning_engine.py lines 198-214);
`idx` is the running length of the accumulated list, so record `idx`
defaults its rule id to `AI-(idx+1)`. -/
def normalizeVuln (idx : Nat) (v : AIVulnIn) : AIVulnOut :=
  { rule_id := v.rule_id.getD ("AI-" ++ toString (idx + 1))
    title := v.title.getD "Unknown Vulnerability"
    severity := (v.severity.getD "info").toLower
    exploitability := (v.exploitability.getD "moderate").toLower
    category := v.category.getD "security"
    line_number := pyOrNat v.line_number v.line
    function_name := pyOrStr v.function_name v.function
    description := v.description.getD ""
    exploit_scenario := v.exploit_scenario
    recommendation := v.recommendation
    fixed_code := v.fixed_code
    cwe_id := v.cwe_id
    swc_id := v.swc_id
    detected_by := "ai"
    confidence := v.confidence.getD 85 }

/-- The `for vuln in response.get("vulnerabilities", [])` loop (lines
197-215), the counter being the length accumulated so far. -/
def normalizeVulnsAux : Nat → List AIVulnIn → List AIVulnOut
  | _, [] => []
  | i, v :: rest => normalizeVuln i v :: normalizeVulnsAux (i + 1) rest

/-- The parsed external-analyzer response; `π` is the opaque payload of
the passthrough collections. -/
structure AIResponse (π : Type) where
  summary : Option String
  overall_risk : Option String
  vulnerabilities : List AIVulnIn
  gas_optimizations : Option (List π)
  architectural_issues : Option (List π)
  logic_flaws : Option (List π)
  best_practice_violations : Option (List π)
  deriving Repr, DecidableEq

/-- The normalized response. -/
structure AINormalized (π : Type) where
  summary : String
  overall_risk : String
  vulnerabilities : List AIVulnOut
  gas_optimizations : List π
  architectural_issues : List π
  logic_flaws : List π
  best_practice_violations : List π
  deriving Repr, DecidableEq

/-- `AIReasoningEngine._normalize_response` (lines 175-217). -/
def normalizeResponse {π : Type} (r : AIResponse π) : AINormalized π :=
  { summary := r.summary.getD ""
    overall_risk := (r.overall_risk.getD "unknown").toLower
    vulnerabilities := normalizeVulnsAux 0 r.vulnerabilities
    gas_optimizations := r.gas_optimizations.getD []
    architectural_issues := r.architectural_issues.getD []
    logic_flaws := r.logic_flaws.getD []
    best_practice_violations := r.best_practice_violations.getD [] }

theorem mem_normalizeVulnsAux :
    ∀ (l : List AIVulnIn) (n : Nat) (v : AIVulnOut),
      v ∈ normalizeVulnsAux n l →
      ∃ vin ∈ l, ∃ i, v = normalizeVuln i vin := by
  intro l
  induction l with
  | nil => intro n v hv; exact absurd hv (List.not_mem_nil v)
  | cons x rest ih =>
      intro n v hv
      rcases List.mem_cons.mp hv with h | h
      · exact ⟨x, List.mem_cons_self x rest, n, h⟩
      · rcases ih (n + 1) v h with ⟨vin, hvin, i, hvi⟩
        exact ⟨vin, List.mem_cons_of_mem x hvin, i, hvi⟩

/-- C9: every vulnerability record of the normalized output comes from
an input record and carries the lower-cased severity (defaulting to
"info"), the confidence defaulting to 85, and `detected_by = "ai"`. -/
theorem normalizeResponse_vuln_fields {π : Type} (r : AIResponse π)
    (v : AIVulnOut) (hv : v ∈ (normalizeResponse r).vulnerabilities) :
    ∃ vin ∈ r.vulnerabilities,
      v.severity = (vin.severity.getD "info").toLower ∧
      v.confidence = vin.confidence.getD 85 ∧
      v.detected_by = "ai" := by
  rcases mem_normalizeVulnsAux r.vulnerabilities 0 v hv with ⟨vin, hvin, i, hvi⟩
  subst hvi
  exact ⟨vin, hvin, rfl, rfl, rfl⟩

/-- Sample raw record for the C9 witness: upper-case severity, no
confidence. -/
def sampleAIVulnIn : AIVulnIn :=
  { rule_id := none, title := none, severity := some "HIGH",
    exploitability := none, category := none, line_number := none,
    line := none, function_name := none, function := none,
    description := none, exploit_scenario := none, recommendation := none,
    fixed_code := none, cwe_id := none, swc_id := none, confidence := none }

/-- Sample response holding just `sampleAIVulnIn`. -/
def sampleAIResponse : AIResponse Unit :=
  { summary := none, overall_risk := none,
    vulnerabilities := [sampleAIVulnIn],
    gas_optimizations := none, architectural_issues := none,
    logic_flaws := none, best_practice_violations := none }

/-- C9 witness: a record with upper-case severity and no confidence. -/
theorem normalizeResponse_vuln_fields_witness :
    ∃ vin ∈ sampleAIResponse.vulnerabilities,
      (normalizeVuln 0 sampleAIVulnIn).severity =
          ((vin.severity).getD "info").toLower ∧
      (normalizeVuln 0 sampleAIVulnIn).confidence = (vin.confidence).getD 85 ∧
      (normalizeVuln 0 sampleAIVulnIn).detected_by = "ai" :=
  normalizeResponse_vuln_fields (π := Unit) sampleAIResponse
    (normalizeVuln 0 sampleAIVulnIn)
    (by rw [normalizeResponse]; exact List.mem_singleton.mpr rfl)

end SentryAudit
